import Mathlib

/-!
Shallow embedding of the elf_reader decoding engine (src/header.rs,
src/program_header.rs, src/section_header.rs, src/lib.rs).

Modelling conventions:
* A byte buffer is a `List Nat`; a well-formed buffer has every byte below
  256 (`wellFormed`).
* Machine integers are `Nat`.  The Rust code only combines byte-sized
  values with `|` and `<<`, which never overflows the target width when
  the inputs are bytes, so no reduction modulo `2 ^ w` is needed at the
  combination sites.
* Fallible decoding returns `Option`.  An out-of-range buffer access
  (a Rust slice/index panic) is modelled as decode failure `none`, in
  line with the failure taxonomy of the specification which folds
  out-of-bounds field reads into the single MalformedInput outcome.
* Rust `String` names are modelled as the underlying byte lists, with
  UTF-8 validity checked explicitly by `isValidUtf8`.
-/

namespace ElfReader

/-- Buffer well-formedness: every element is an actual byte value. -/
def wellFormed (binary : List Nat) : Bool :=
  binary.all (fun b => b < 256)

/-- Reading the slice `&binary[off..off+len]`; `none` models the Rust
panic when the range leaves the buffer. -/
def readBytes (binary : List Nat) (off len : Nat) : Option (List Nat) :=
  if off + len ≤ binary.length then some ((binary.drop off).take len) else none

/-- Reading the slice `&binary[r.1..r.2]` for a range given as a pair. -/
def readRange (binary : List Nat) (r : Nat × Nat) : Option (List Nat) :=
  readBytes binary r.1 (r.2 - r.1)

/-- Reading the single byte `binary[i]`; `none` models the index panic. -/
def readByte (binary : List Nat) (i : Nat) : Option Nat :=
  binary.get? i

/-- make_u16 from src/header.rs: two bytes combined with `|` and `<< 8`,
least-significant byte first when little-endian. -/
def make_u16 (values : List Nat) (is_little_endian : Bool) : Nat :=
  if is_little_endian then
    (values.getD 0 0) ||| ((values.getD 1 0) <<< 8)
  else
    (values.getD 1 0) ||| ((values.getD 0 0) <<< 8)

/-- make_u32 from src/header.rs: the four bytes are taken in buffer order
when little-endian and reversed when big-endian, then combined with `|`
and shifts of 8, 16 and 24 bits. -/
def make_u32 (values : List Nat) (is_little_endian : Bool) : Nat :=
  let v0 := if is_little_endian then values.getD 0 0 else values.getD 3 0
  let v1 := if is_little_endian then values.getD 1 0 else values.getD 2 0
  let v2 := if is_little_endian then values.getD 2 0 else values.getD 1 0
  let v3 := if is_little_endian then values.getD 3 0 else values.getD 0 0
  v0 ||| (v1 <<< 8) ||| (v2 <<< 16) ||| (v3 <<< 24)

/-- make_u64 from src/header.rs: the byte list (reversed when big-endian)
is folded together with its indices, or-ing each byte shifted by eight
bits per position. -/
def make_u64 (values : List Nat) (is_little_endian : Bool) : Nat :=
  let values := if is_little_endian then values else values.reverse
  values.enum.foldl (fun acc p => acc ||| (p.2 <<< (p.1 * 8))) 0

/-- Fail-fast left-to-right collection, the semantics of Rust's
`iterator.map(...).collect::<Option<Vec<_>>>()`. -/
def collectMap {α β : Type} (f : α → Option β) : List α → Option (List β)
  | [] => some []
  | a :: rest =>
    match f a with
    | none => none
    | some b =>
      match collectMap f rest with
      | none => none
      | some bs => some (b :: bs)

/-! Enumerated fields of the file header (src/header.rs). -/

inductive Class
  | ELF32
  | ELF64
deriving DecidableEq

inductive Endian
  | Little
  | Big
deriving DecidableEq

inductive TargetABI
  | SystemV
  | HP_UX
  | NetBSD
  | Linux
  | GNUHard
  | Solaris
  | AIX
  | IRIX
  | FreeBSD
  | Tru64
  | NovellModestro
  | OpenBSD
  | OpenVMS
  | NonStopKernel
  | AROS
  | FenixOS
  | CloudABI
deriving DecidableEq

/-- TargetABI::new (src/header.rs): 17 recognized byte values. -/
def TargetABI.new (value : Nat) : Option TargetABI :=
  if value = 0x00 then some .SystemV
  else if value = 0x01 then some .HP_UX
  else if value = 0x02 then some .NetBSD
  else if value = 0x03 then some .Linux
  else if value = 0x04 then some .GNUHard
  else if value = 0x06 then some .Solaris
  else if value = 0x07 then some .AIX
  else if value = 0x08 then some .IRIX
  else if value = 0x09 then some .FreeBSD
  else if value = 0x0A then some .Tru64
  else if value = 0x0B then some .NovellModestro
  else if value = 0x0C then some .OpenBSD
  else if value = 0x0D then some .OpenVMS
  else if value = 0x0E then some .NonStopKernel
  else if value = 0x0F then some .AROS
  else if value = 0x10 then some .FenixOS
  else if value = 0x11 then some .CloudABI
  else none

inductive ObjectFileType
  | NONE
  | REL
  | EXEC
  | DYN
  | CORE
  | LOOS
  | HIOS
  | LOPROC
  | HIPROC
deriving DecidableEq

/-- ObjectFileType::new (src/header.rs). -/
def ObjectFileType.new (value : Nat) : Option ObjectFileType :=
  if value = 0x0000 then some .NONE
  else if value = 0x0001 then some .REL
  else if value = 0x0002 then some .EXEC
  else if value = 0x0003 then some .DYN
  else if value = 0x0004 then some .CORE
  else if value = 0xFE00 then some .LOOS
  else if value = 0xFEFF then some .HIOS
  else if value = 0xFF00 then some .LOPROC
  else if value = 0xFFFF then some .HIPROC
  else none

inductive ISA
  | NONE
  | SPARC
  | x86
  | MIPS
  | PowerPC
  | S390
  | ARM
  | SuperH
  | IA_64
  | x86_64
  | AArch64
  | RISC_V
deriving DecidableEq

/-- ISA::new (src/header.rs). -/
def ISA.new (value : Nat) : Option ISA :=
  if value = 0x00 then some .NONE
  else if value = 0x02 then some .SPARC
  else if value = 0x03 then some .x86
  else if value = 0x08 then some .MIPS
  else if value = 0x14 then some .PowerPC
  else if value = 0x16 then some .S390
  else if value = 0x28 then some .ARM
  else if value = 0x2A then some .SuperH
  else if value = 0x32 then some .IA_64
  else if value = 0x3E then some .x86_64
  else if value = 0xB7 then some .AArch64
  else if value = 0xF3 then some .RISC_V
  else none

/-- The decoded file header (struct Header<T> in src/header.rs); the
word-size-generic field type T becomes Nat. -/
structure Header where
  elf_class : Class
  endian : Endian
  target_abi : TargetABI
  abi_version : Nat
  object_type : ObjectFileType
  target_isa : ISA
  entry_point : Nat
  program_header_offset : Nat
  section_header_offset : Nat
  flags : Nat
  header_size : Nat
  program_header_size : Nat
  program_header_number : Nat
  section_header_size : Nat
  section_header_number : Nat
  section_name_table_entry : Nat
deriving DecidableEq

/-- Accessor used by the table decoders: whether the header is
little-endian. -/
def Header.is_little (h : Header) : Bool :=
  match h.endian with
  | .Little => true
  | .Big => false

/-- Accessors used by program_header.rs and section_header.rs; they read
the corresponding header fields. -/
def Header.ph_offset (h : Header) : Nat := h.program_header_offset

def Header.ph_size (h : Header) : Nat := h.program_header_size

def Header.ph_num (h : Header) : Nat := h.program_header_number

def Header.sh_offset (h : Header) : Nat := h.section_header_offset

def Header.sh_size (h : Header) : Nat := h.section_header_size

def Header.sh_num (h : Header) : Nat := h.section_header_number

/-- construct (src/header.rs lines 54-119), generic over the truncator
that reads the three class-width fields.  The checks appear in source
order: magic, version byte 0x6, repeated-version byte 0x14, class byte,
endianness byte, ABI, object type, ISA, then the width-dependent reads
from offset 0x18 and the trailing fixed-width fields. -/
def construct (binary : List Nat)
    (truncator : List Nat → Nat → Bool → Option (Nat × Nat)) : Option Header :=
  match readBytes binary 0x0 4 with
  | none => none
  | some magicBytes =>
    if make_u32 magicBytes true ≠ 0x464C457F then none else
    match readByte binary 0x6 with
    | none => none
    | some b6 =>
      if b6 ≠ 1 then none else
      match readByte binary 0x14 with
      | none => none
      | some b14 =>
        if b14 ≠ 1 then none else
        match readByte binary 0x4 with
        | none => none
        | some b4 =>
          match (if b4 = 1 then some Class.ELF32
                 else if b4 = 2 then some Class.ELF64 else none) with
          | none => none
          | some elf_class =>
            match readByte binary 0x5 with
            | none => none
            | some b5 =>
              match (if b5 = 1 then some Endian.Little
                     else if b5 = 2 then some Endian.Big else none) with
              | none => none
              | some endian =>
                let is_little := match endian with
                  | Endian.Little => true
                  | Endian.Big => false
                match readByte binary 0x7 with
                | none => none
                | some b7 =>
                  match TargetABI.new b7 with
                  | none => none
                  | some target_abi =>
                    match readByte binary 0x8 with
                    | none => none
                    | some abi_version =>
                      match readBytes binary 0x10 2 with
                      | none => none
                      | some otBytes =>
                        match ObjectFileType.new (make_u16 otBytes is_little) with
                        | none => none
                        | some object_type =>
                          match readBytes binary 0x12 2 with
                          | none => none
                          | some isaBytes =>
                            match ISA.new (make_u16 isaBytes is_little) with
                            | none => none
                            | some target_isa =>
                              match truncator binary 0x18 is_little with
                              | none => none
                              | some (entry_point, off1) =>
                                match truncator binary off1 is_little with
                                | none => none
                                | some (program_header_offset, off2) =>
                                  match truncator binary off2 is_little with
                                  | none => none
                                  | some (section_header_offset, off3) =>
                                    match readBytes binary off3 4 with
                                    | none => none
                                    | some flagBytes =>
                                      match readBytes binary (off3 + 4) 2 with
                                      | none => none
                                      | some hsBytes =>
                                        match readBytes binary (off3 + 6) 2 with
                                        | none => none
                                        | some phsBytes =>
                                          match readBytes binary (off3 + 8) 2 with
                                          | none => none
                                          | some phnBytes =>
                                            match readBytes binary (off3 + 10) 2 with
                                            | none => none
                                            | some shsBytes =>
                                              match readBytes binary (off3 + 12) 2 with
                                              | none => none
                                              | some shnBytes =>
                                                match readBytes binary (off3 + 14) 2 with
                                                | none => none
                                                | some sntBytes =>
                                                  some {
                                                    elf_class := elf_class
                                                    endian := endian
                                                    target_abi := target_abi
                                                    abi_version := abi_version
                                                    object_type := object_type
                                                    target_isa := target_isa
                                                    entry_point := entry_point
                                                    program_header_offset := program_header_offset
                                                    section_header_offset := section_header_offset
                                                    flags := make_u32 flagBytes is_little
                                                    header_size := make_u16 hsBytes is_little
                                                    program_header_size := make_u16 phsBytes is_little
                                                    program_header_number := make_u16 phnBytes is_little
                                                    section_header_size := make_u16 shsBytes is_little
                                                    section_header_number := make_u16 shnBytes is_little
                                                    section_name_table_entry := make_u16 sntBytes is_little
                                                  }

/-- Header::<u32>::new (src/header.rs lines 36-43): construct with the
four-byte truncator. -/
def Header.new32 (binary : List Nat) : Option Header :=
  construct binary (fun bin offset is_little =>
    match readBytes bin offset 4 with
    | none => none
    | some bs => some (make_u32 bs is_little, offset + 4))

/-- Header::<u64>::new (src/header.rs lines 45-52): construct with the
eight-byte truncator. -/
def Header.new64 (binary : List Nat) : Option Header :=
  construct binary (fun bin offset is_little =>
    match readBytes bin offset 8 with
    | none => none
    | some bs => some (make_u64 bs is_little, offset + 8))

/-! Program-header table decoding (src/program_header.rs). -/

inductive ProgramType
  | Null
  | Load
  | Dynamic
  | Interp
  | Note
  | Shlib
  | Phdr
  | Tls
  | Loos
  | Hios
  | Loproc
  | Hiproc
deriving DecidableEq

/-- ProgramType::new (src/program_header.rs lines 115-135): the eight
fixed segment types and the four range boundary values. -/
def ProgramType.new (value : Nat) : Option ProgramType :=
  if value = 0x00000000 then some .Null
  else if value = 0x00000001 then some .Load
  else if value = 0x00000002 then some .Dynamic
  else if value = 0x00000003 then some .Interp
  else if value = 0x00000004 then some .Note
  else if value = 0x00000005 then some .Shlib
  else if value = 0x00000006 then some .Phdr
  else if value = 0x00000007 then some .Tls
  else if value = 0x60000000 then some .Loos
  else if value = 0x6FFFFFFF then some .Hios
  else if value = 0x70000000 then some .Loproc
  else if value = 0x7FFFFFFF then some .Hiproc
  else none

/-- One decoded program-header record (struct ProgramHeader<T>). -/
structure ProgramHeader where
  program_type : ProgramType
  offset : Nat
  vaddr : Nat
  paddr : Nat
  file_size : Nat
  memory_size : Nat
  flags : Nat
  align : Nat
deriving DecidableEq

/-- ProgramHeader::construct (src/program_header.rs lines 23-52): reads
the segment type from the first range (failing on unrecognized values)
and the six width-dependent fields from the remaining ranges. -/
def ProgramHeader.construct (binary : List Nat) (hd : Header) (flags : Nat)
    (entry : List (Nat × Nat)) (make_unsigned : List Nat → Bool → Nat) :
    Option ProgramHeader :=
  match readRange binary (entry.getD 0 (0, 0)) with
  | none => none
  | some ptBytes =>
    match ProgramType.new (make_u32 ptBytes hd.is_little) with
    | none => none
    | some program_type =>
      match readRange binary (entry.getD 1 (0, 0)) with
      | none => none
      | some offBytes =>
        match readRange binary (entry.getD 2 (0, 0)) with
        | none => none
        | some vaBytes =>
          match readRange binary (entry.getD 3 (0, 0)) with
          | none => none
          | some paBytes =>
            match readRange binary (entry.getD 4 (0, 0)) with
            | none => none
            | some fsBytes =>
              match readRange binary (entry.getD 5 (0, 0)) with
              | none => none
              | some msBytes =>
                match readRange binary (entry.getD 6 (0, 0)) with
                | none => none
                | some alBytes =>
                  some {
                    program_type := program_type
                    offset := make_unsigned offBytes hd.is_little
                    vaddr := make_unsigned vaBytes hd.is_little
                    paddr := make_unsigned paBytes hd.is_little
                    file_size := make_unsigned fsBytes hd.is_little
                    memory_size := make_unsigned msBytes hd.is_little
                    flags := flags
                    align := make_unsigned alBytes hd.is_little
                  }

/-- One slot of the 32-bit program-header table (body of the closure in
ProgramHeader::<u32>::new, src/program_header.rs lines 57-73), at the
given base offset: the flags word sits at +0x18 and the seven other
fields are 4-byte ranges. -/
def ProgramHeader.decodeSlot32 (binary : List Nat) (hd : Header)
    (entry_point : Nat) : Option ProgramHeader :=
  let entry := [
    (entry_point + 0x00, entry_point + 0x04),
    (entry_point + 0x04, entry_point + 0x08),
    (entry_point + 0x08, entry_point + 0x0C),
    (entry_point + 0x0C, entry_point + 0x10),
    (entry_point + 0x10, entry_point + 0x14),
    (entry_point + 0x14, entry_point + 0x18),
    (entry_point + 0x1C, entry_point + 0x20)]
  match readBytes binary (entry_point + 0x18) 4 with
  | none => none
  | some flagBytes =>
    ProgramHeader.construct binary hd (make_u32 flagBytes hd.is_little) entry make_u32

/-- One slot of the 64-bit program-header table (body of the closure in
ProgramHeader::<u64>::new, src/program_header.rs lines 79-94): the flags
word sits at +0x04 and the other fields use the 64-bit layout. -/
def ProgramHeader.decodeSlot64 (binary : List Nat) (hd : Header)
    (entry_point : Nat) : Option ProgramHeader :=
  let entry := [
    (entry_point + 0x00, entry_point + 0x04),
    (entry_point + 0x08, entry_point + 0x10),
    (entry_point + 0x10, entry_point + 0x18),
    (entry_point + 0x18, entry_point + 0x20),
    (entry_point + 0x20, entry_point + 0x28),
    (entry_point + 0x28, entry_point + 0x30),
    (entry_point + 0x30, entry_point + 0x38)]
  match readBytes binary (entry_point + 0x04) 4 with
  | none => none
  | some flagBytes =>
    ProgramHeader.construct binary hd (make_u32 flagBytes hd.is_little) entry make_u64

/-- ProgramHeader::<u32>::new: one slot per index below ph_num, each at
base offset ph_offset + index * ph_size, collected fail-fast. -/
def ProgramHeader.new32 (binary : List Nat) (hd : Header) :
    Option (List ProgramHeader) :=
  collectMap
    (fun index =>
      ProgramHeader.decodeSlot32 binary hd (hd.ph_offset + index * hd.ph_size))
    (List.range hd.ph_num)

/-- ProgramHeader::<u64>::new: as the 32-bit entry point but with the
64-bit slot layout. -/
def ProgramHeader.new64 (binary : List Nat) (hd : Header) :
    Option (List ProgramHeader) :=
  collectMap
    (fun index =>
      ProgramHeader.decodeSlot64 binary hd (hd.ph_offset + index * hd.ph_size))
    (List.range hd.ph_num)

/-! Section-header table decoding (src/section_header.rs). -/

inductive SectionType
  | Null
  | ProgBits
  | SymTab
  | StrTab
  | Rela
  | Hash
  | Dynamic
  | Note
  | NoBits
  | Rel
  | ShLib
  | DynSym
  | InitArray
  | FiniArray
  | PreinitArray
  | Group
  | SymTabSHNDX
  | Num
  | Loos (off : Nat)
  | LoProc (off : Nat)
  | LoUser (off : Nat)
deriving DecidableEq

/-- SectionType::new (src/section_header.rs lines 265-296): 18 fixed
values, then the three reserved ranges of size 2 ^ 28 starting at
0x60000000, 0x70000000 and 0x80000000, each carrying the in-range
offset; everything else is rejected. -/
def SectionType.new (value : Nat) : Option SectionType :=
  if value = 0x00000000 then some .Null
  else if value = 0x00000001 then some .ProgBits
  else if value = 0x00000002 then some .SymTab
  else if value = 0x00000003 then some .StrTab
  else if value = 0x00000004 then some .Rela
  else if value = 0x00000005 then some .Hash
  else if value = 0x00000006 then some .Dynamic
  else if value = 0x00000007 then some .Note
  else if value = 0x00000008 then some .NoBits
  else if value = 0x00000009 then some .Rel
  else if value = 0x0000000A then some .ShLib
  else if value = 0x0000000B then some .DynSym
  else if value = 0x0000000E then some .InitArray
  else if value = 0x0000000F then some .FiniArray
  else if value = 0x00000010 then some .PreinitArray
  else if value = 0x00000011 then some .Group
  else if value = 0x00000012 then some .SymTabSHNDX
  else if value = 0x00000013 then some .Num
  else if 0x60000000 ≤ value ∧ value < 0x60000000 + 0x10000000 then
    some (.Loos (value - 0x60000000))
  else if 0x70000000 ≤ value ∧ value < 0x70000000 + 0x10000000 then
    some (.LoProc (value - 0x70000000))
  else if 0x80000000 ≤ value ∧ value < 0x80000000 + 0x10000000 then
    some (.LoUser (value - 0x80000000))
  else none

/-- One raw (un-named) section-header record (struct
InnerSectionHeader<T>). -/
structure InnerSectionHeader where
  name_offset : Nat
  section_type : SectionType
  flags : Nat
  addr : Nat
  offset : Nat
  size : Nat
  link : Nat
  info : Nat
  addr_align : Nat
  entry_size : Nat
deriving DecidableEq

/-- InnerSectionHeader::construct (src/section_header.rs lines 102-127):
the ten field reads in source order; the section type read fails on
unrecognized values. -/
def InnerSectionHeader.construct (binary : List Nat) (hd : Header)
    (entry : List (Nat × Nat)) (make_unsigned : List Nat → Bool → Nat) :
    Option InnerSectionHeader :=
  match readRange binary (entry.getD 0 (0, 0)) with
  | none => none
  | some noBytes =>
    match readRange binary (entry.getD 1 (0, 0)) with
    | none => none
    | some stBytes =>
      match SectionType.new (make_u32 stBytes hd.is_little) with
      | none => none
      | some section_type =>
        match readRange binary (entry.getD 2 (0, 0)) with
        | none => none
        | some flBytes =>
          match readRange binary (entry.getD 3 (0, 0)) with
          | none => none
          | some adBytes =>
            match readRange binary (entry.getD 4 (0, 0)) with
            | none => none
            | some ofBytes =>
              match readRange binary (entry.getD 5 (0, 0)) with
              | none => none
              | some szBytes =>
                match readRange binary (entry.getD 6 (0, 0)) with
                | none => none
                | some lkBytes =>
                  match readRange binary (entry.getD 7 (0, 0)) with
                  | none => none
                  | some inBytes =>
                    match readRange binary (entry.getD 8 (0, 0)) with
                    | none => none
                    | some aaBytes =>
                      match readRange binary (entry.getD 9 (0, 0)) with
                      | none => none
                      | some esBytes =>
                        some {
                          name_offset := make_u32 noBytes hd.is_little
                          section_type := section_type
                          flags := make_unsigned flBytes hd.is_little
                          addr := make_unsigned adBytes hd.is_little
                          offset := make_unsigned ofBytes hd.is_little
                          size := make_unsigned szBytes hd.is_little
                          link := make_u32 lkBytes hd.is_little
                          info := make_u32 inBytes hd.is_little
                          addr_align := make_unsigned aaBytes hd.is_little
                          entry_size := make_unsigned esBytes hd.is_little
                        }

/-- InnerSectionHeader::<u32>::make_entry_point: base offset of table
slot `index`. -/
def InnerSectionHeader.make_entry_point (hd : Header) (index : Nat) : Nat :=
  hd.sh_offset + index * hd.sh_size

/-- InnerSectionHeader::<u32>::new (src/section_header.rs lines 137-157):
ten consecutive 4-byte ranges per slot. -/
def InnerSectionHeader.new32 (binary : List Nat) (hd : Header) :
    Option (List InnerSectionHeader) :=
  collectMap
    (fun index =>
      let ep := InnerSectionHeader.make_entry_point hd index
      InnerSectionHeader.construct binary hd [
        (ep + 0x00, ep + 0x04),
        (ep + 0x04, ep + 0x08),
        (ep + 0x08, ep + 0x0C),
        (ep + 0x0C, ep + 0x10),
        (ep + 0x10, ep + 0x14),
        (ep + 0x14, ep + 0x18),
        (ep + 0x18, ep + 0x1C),
        (ep + 0x1C, ep + 0x20),
        (ep + 0x20, ep + 0x24),
        (ep + 0x24, ep + 0x28)] make_u32)
    (List.range hd.sh_num)

/-- InnerSectionHeader::<u64>::new (src/section_header.rs lines 168-188):
the 64-bit slot layout; name offset, type, link and info stay 4 bytes
while the class-width fields are 8 bytes. -/
def InnerSectionHeader.new64 (binary : List Nat) (hd : Header) :
    Option (List InnerSectionHeader) :=
  collectMap
    (fun index =>
      let ep := InnerSectionHeader.make_entry_point hd index
      InnerSectionHeader.construct binary hd [
        (ep + 0x00, ep + 0x04),
        (ep + 0x04, ep + 0x08),
        (ep + 0x08, ep + 0x10),
        (ep + 0x10, ep + 0x18),
        (ep + 0x18, ep + 0x20),
        (ep + 0x20, ep + 0x28),
        (ep + 0x28, ep + 0x2C),
        (ep + 0x2C, ep + 0x30),
        (ep + 0x30, ep + 0x38),
        (ep + 0x38, ep + 0x40)] make_u64)
    (List.range hd.sh_num)

/-- UTF-8 validity of a byte list, the acceptance condition of Rust's
std::str::from_utf8: ASCII, two-byte forms C2-DF, three-byte forms with
the E0/ED special continuation windows, four-byte forms with the F0/F4
special windows; overlong forms, surrogates and values beyond U+10FFFF
are rejected. -/
def isValidUtf8 : List Nat → Bool
  | [] => true
  | b :: rest =>
    if b ≤ 0x7F then isValidUtf8 rest
    else if 0xC2 ≤ b ∧ b ≤ 0xDF then
      match rest with
      | c1 :: rest2 =>
        decide (0x80 ≤ c1 ∧ c1 ≤ 0xBF) && isValidUtf8 rest2
      | [] => false
    else if b = 0xE0 then
      match rest with
      | c1 :: c2 :: rest2 =>
        decide (0xA0 ≤ c1 ∧ c1 ≤ 0xBF) && decide (0x80 ≤ c2 ∧ c2 ≤ 0xBF) &&
          isValidUtf8 rest2
      | _ => false
    else if (0xE1 ≤ b ∧ b ≤ 0xEC) ∨ b = 0xEE ∨ b = 0xEF then
      match rest with
      | c1 :: c2 :: rest2 =>
        decide (0x80 ≤ c1 ∧ c1 ≤ 0xBF) && decide (0x80 ≤ c2 ∧ c2 ≤ 0xBF) &&
          isValidUtf8 rest2
      | _ => false
    else if b = 0xED then
      match rest with
      | c1 :: c2 :: rest2 =>
        decide (0x80 ≤ c1 ∧ c1 ≤ 0x9F) && decide (0x80 ≤ c2 ∧ c2 ≤ 0xBF) &&
          isValidUtf8 rest2
      | _ => false
    else if b = 0xF0 then
      match rest with
      | c1 :: c2 :: c3 :: rest2 =>
        decide (0x90 ≤ c1 ∧ c1 ≤ 0xBF) && decide (0x80 ≤ c2 ∧ c2 ≤ 0xBF) &&
          decide (0x80 ≤ c3 ∧ c3 ≤ 0xBF) && isValidUtf8 rest2
      | _ => false
    else if 0xF1 ≤ b ∧ b ≤ 0xF3 then
      match rest with
      | c1 :: c2 :: c3 :: rest2 =>
        decide (0x80 ≤ c1 ∧ c1 ≤ 0xBF) && decide (0x80 ≤ c2 ∧ c2 ≤ 0xBF) &&
          decide (0x80 ≤ c3 ∧ c3 ≤ 0xBF) && isValidUtf8 rest2
      | _ => false
    else if b = 0xF4 then
      match rest with
      | c1 :: c2 :: c3 :: rest2 =>
        decide (0x80 ≤ c1 ∧ c1 ≤ 0x8F) && decide (0x80 ≤ c2 ∧ c2 ≤ 0xBF) &&
          decide (0x80 ≤ c3 ∧ c3 ≤ 0xBF) && isValidUtf8 rest2
      | _ => false
    else false

/-- A named section-header record (struct SectionHeader<T>); the Rust
String name is kept as its bytes. -/
structure SectionHeader where
  name : List Nat
  inner : InnerSectionHeader
deriving DecidableEq

/-- Name resolution for one record (body of the closure in
SectionHeader::construct, src/section_header.rs lines 29-41): the bytes
from string-table base plus raw name offset up to the first null must
exist and decode as text.  A base past the buffer end is the Rust slice
panic, modelled as failure. -/
def resolveName (binary : List Nat) (section_entry : Nat)
    (inner : InnerSectionHeader) : Option (List Nat) :=
  let name_entry := inner.name_offset + section_entry
  if binary.length < name_entry then none
  else
    match (binary.drop name_entry).findIdx? (fun b => b == 0) with
    | none => none
    | some end_of_string =>
      let nameBytes := (binary.drop name_entry).take end_of_string
      if isValidUtf8 nameBytes then some nameBytes else none

/-- SectionHeader::construct (src/section_header.rs lines 21-42): the
string-table section is taken to be the LAST decoded record; an empty
table resolves vacuously to the empty sequence; each record's name is
resolved fail-fast from that base. -/
def SectionHeader.construct (binary : List Nat) (hd : Header)
    (inner_headers : List InnerSectionHeader) : Option (List SectionHeader) :=
  match inner_headers.getLast? with
  | none => some []
  | some shstrtab =>
    let section_entry := shstrtab.offset
    collectMap
      (fun inner =>
        match resolveName binary section_entry inner with
        | none => none
        | some name => some { name := name, inner := inner })
      inner_headers

/-- SectionHeader::<u32>::new (src/section_header.rs lines 56-61). -/
def SectionHeader.new32 (binary : List Nat) (hd : Header) :
    Option (List SectionHeader) :=
  match InnerSectionHeader.new32 binary hd with
  | none => none
  | some ih => SectionHeader.construct binary hd ih

/-- SectionHeader::<u64>::new (src/section_header.rs lines 63-67). -/
def SectionHeader.new64 (binary : List Nat) (hd : Header) :
    Option (List SectionHeader) :=
  match InnerSectionHeader.new64 binary hd with
  | none => none
  | some ih => SectionHeader.construct binary hd ih

/-- Modelled from the spec: name resolution as the specification's
design note demands it, with the string-table section designated by the
file header's string-table-section-index field
(section_name_table_entry) instead of the positional last-entry
convention.  Used only to compare against the code's resolution. -/
def sectionNamesBySpecIndex (binary : List Nat) (hd : Header)
    (inner_headers : List InnerSectionHeader) : Option (List (List Nat)) :=
  match inner_headers.get? hd.section_name_table_entry with
  | none => none
  | some strtab =>
    collectMap (fun inner => resolveName binary strtab.offset inner) inner_headers

/-! Helper lemmas. -/

theorem collectMap_length {α β : Type} (f : α → Option β) (l : List α)
    (r : List β) (h : collectMap f l = some r) : r.length = l.length := by
  induction l generalizing r with
  | nil =>
    simp only [collectMap] at h
    cases h
    rfl
  | cons a rest ih =>
    simp only [collectMap] at h
    cases hfa : f a with
    | none => rw [hfa] at h; cases h
    | some b =>
      rw [hfa] at h
      cases hrec : collectMap f rest with
      | none => rw [hrec] at h; cases h
      | some bs =>
        rw [hrec] at h
        cases h
        simp [ih bs hrec]

theorem collectMap_get? {α β : Type} (f : α → Option β) (l : List α)
    (r : List β) (h : collectMap f l = some r) :
    ∀ i a, l.get? i = some a → r.get? i = f a := by
  induction l generalizing r with
  | nil => intro i a hi; simp at hi
  | cons x rest ih =>
    simp only [collectMap] at h
    cases hfa : f x with
    | none => rw [hfa] at h; cases h
    | some b =>
      rw [hfa] at h
      cases hrec : collectMap f rest with
      | none => rw [hrec] at h; cases h
      | some bs =>
        rw [hrec] at h
        cases h
        intro i a hi
        cases i with
        | zero =>
          simp only [List.get?] at hi
          cases hi
          simp [hfa]
        | succ j =>
          simp only [List.get?] at hi ⊢
          exact ih bs hrec j a hi

theorem collectMap_none {α β : Type} (f : α → Option β) (l : List α)
    (a : α) (hmem : a ∈ l) (hfa : f a = none) : collectMap f l = none := by
  induction l with
  | nil => cases hmem
  | cons x rest ih =>
    simp only [collectMap]
    rcases List.mem_cons.mp hmem with h | h
    · subst h; rw [hfa]
    · cases hfx : f x with
      | none => rfl
      | some b => rw [ih h]

theorem byte_lor (x b k : Nat) (hx : x < 2 ^ k) :
    x ||| (b <<< k) = x + b * 2 ^ k := by
  rw [Nat.lor_comm, Nat.shiftLeft_eq, Nat.mul_comm b (2 ^ k),
    ← Nat.mul_add_lt_is_or hx b, Nat.add_comm]

/-- Value of a byte list read least-significant-first, base 256 (the
specification's "most-significant-last" order). -/
def bytesLSF (l : List Nat) : Nat :=
  l.foldr (fun b acc => b + 256 * acc) 0

theorem lorshift (x b k m : Nat) (hm : 2 ^ k = m) (hx : x < m) :
    x ||| (b <<< k) = x + b * m := by
  subst hm
  exact byte_lor x b k hx

theorem fold_lor_from (l : List Nat) (hb : ∀ b ∈ l, b < 256) :
    ∀ (i acc : Nat), acc < 2 ^ (8 * i) →
      (l.enumFrom i).foldl (fun acc p => acc ||| (p.2 <<< (p.1 * 8))) acc =
        acc + 2 ^ (8 * i) * bytesLSF l := by
  induction l with
  | nil => intro i acc _; simp [bytesLSF]
  | cons b rest ih =>
    intro i acc hacc
    have hbb : b < 256 := hb b (List.mem_cons_self b rest)
    have hrest : ∀ x ∈ rest, x < 256 := fun x hx => hb x (List.mem_cons_of_mem b hx)
    have hstep : acc ||| (b <<< (i * 8)) = acc + b * 2 ^ (8 * i) := by
      rw [Nat.mul_comm i 8]
      exact byte_lor acc b (8 * i) hacc
    have hpow : (2 : Nat) ^ (8 * (i + 1)) = 2 ^ (8 * i) * 256 := by
      rw [Nat.mul_add, Nat.pow_add]
    have hacc2 : acc + b * 2 ^ (8 * i) < 2 ^ (8 * (i + 1)) := by
      rw [hpow]
      have h1 : acc + b * 2 ^ (8 * i) < (b + 1) * 2 ^ (8 * i) := by
        rw [Nat.add_mul, Nat.one_mul, Nat.add_comm (b * 2 ^ (8 * i)) (2 ^ (8 * i))]
        exact Nat.add_lt_add_right hacc _
      have h2 : (b + 1) * 2 ^ (8 * i) ≤ 256 * 2 ^ (8 * i) :=
        Nat.mul_le_mul_right _ hbb
      calc acc + b * 2 ^ (8 * i) < (b + 1) * 2 ^ (8 * i) := h1
        _ ≤ 256 * 2 ^ (8 * i) := h2
        _ = 2 ^ (8 * i) * 256 := Nat.mul_comm _ _
    calc ((b :: rest).enumFrom i).foldl
          (fun acc p => acc ||| (p.2 <<< (p.1 * 8))) acc
        = (rest.enumFrom (i + 1)).foldl
            (fun acc p => acc ||| (p.2 <<< (p.1 * 8))) (acc ||| (b <<< (i * 8))) := by
          simp [List.enumFrom]
      _ = (acc + b * 2 ^ (8 * i)) + 2 ^ (8 * (i + 1)) * bytesLSF rest := by
          rw [hstep]; exact ih hrest (i + 1) _ hacc2
      _ = acc + 2 ^ (8 * i) * bytesLSF (b :: rest) := by
          simp only [bytesLSF, List.foldr, hpow]
          ring

theorem make_u64_closed (l : List Nat) (hb : ∀ b ∈ l, b < 256) (e : Bool) :
    make_u64 l e = if e then bytesLSF l else bytesLSF l.reverse := by
  cases e with
  | true =>
    have := fold_lor_from l hb 0 0 (by norm_num)
    simpa [make_u64, List.enum] using this
  | false =>
    have hb' : ∀ b ∈ l.reverse, b < 256 := fun b h => hb b (List.mem_reverse.mp h)
    have := fold_lor_from l.reverse hb' 0 0 (by norm_num)
    simpa [make_u64, List.enum] using this

/-- Doc for C8's statement: the enumerated-list membership used in the
amended C2 statement, the 18 exactly-matched section type values. -/
def sectionTypeFixedValues : List Nat :=
  [0x00, 0x01, 0x02, 0x03, 0x04, 0x05, 0x06, 0x07, 0x08, 0x09, 0x0A, 0x0B,
   0x0E, 0x0F, 0x10, 0x11, 0x12, 0x13]

/-- C8: for byte slices of exactly 2, 4 and 8 bytes, make_u16, make_u32
and make_u64 reassemble the bytes base-256, least-significant-first when
little-endian and most-significant-first when big-endian.  The
definitions are pure Lean functions, so purity and totality over
well-sized input hold by construction. -/
theorem c8_byte_order_decoders (l : List Nat) (e : Bool)
    (hb : ∀ b ∈ l, b < 256) :
    (l.length = 2 → make_u16 l e = if e then bytesLSF l else bytesLSF l.reverse) ∧
    (l.length = 4 → make_u32 l e = if e then bytesLSF l else bytesLSF l.reverse) ∧
    (l.length = 8 → make_u64 l e = if e then bytesLSF l else bytesLSF l.reverse) := by
  refine ⟨?_, ?_, fun _ => make_u64_closed l hb e⟩
  · intro hlen
    match l, hlen, hb with
    | [b0, b1], _, hb =>
      have h0 : b0 < 256 := hb b0 (by simp)
      have h1 : b1 < 256 := hb b1 (by simp)
      cases e with
      | true =>
        show b0 ||| (b1 <<< 8) = b0 + 256 * (b1 + 256 * 0)
        rw [lorshift b0 b1 8 256 (by norm_num) h0]
        ring
      | false =>
        show b1 ||| (b0 <<< 8) = b1 + 256 * (b0 + 256 * 0)
        rw [lorshift b1 b0 8 256 (by norm_num) h1]
        ring
  · intro hlen
    match l, hlen, hb with
    | [b0, b1, b2, b3], _, hb =>
      have h0 : b0 < 256 := hb b0 (by simp)
      have h1 : b1 < 256 := hb b1 (by simp)
      have h2 : b2 < 256 := hb b2 (by simp)
      have h3 : b3 < 256 := hb b3 (by simp)
      cases e with
      | true =>
        show b0 ||| (b1 <<< 8) ||| (b2 <<< 16) ||| (b3 <<< 24) =
          b0 + 256 * (b1 + 256 * (b2 + 256 * (b3 + 256 * 0)))
        rw [lorshift b0 b1 8 256 (by norm_num) h0,
          lorshift (b0 + b1 * 256) b2 16 65536 (by norm_num) (by omega),
          lorshift (b0 + b1 * 256 + b2 * 65536) b3 24 16777216
            (by norm_num) (by omega)]
        ring
      | false =>
        show b3 ||| (b2 <<< 8) ||| (b1 <<< 16) ||| (b0 <<< 24) =
          b3 + 256 * (b2 + 256 * (b1 + 256 * (b0 + 256 * 0)))
        rw [lorshift b3 b2 8 256 (by norm_num) h3,
          lorshift (b3 + b2 * 256) b1 16 65536 (by norm_num) (by omega),
          lorshift (b3 + b2 * 256 + b1 * 65536) b0 24 16777216
            (by norm_num) (by omega)]
        ring

/-- Witness for C8 at the concrete slices [1, 2], [1, 2, 3, 4] and
[1, 2, 3, 4, 5, 6, 7, 8] in both byte orders. -/
theorem c8_byte_order_decoders_witness :
    (make_u16 [1, 2] true = if true then bytesLSF [1, 2]
      else bytesLSF (List.reverse [1, 2])) ∧
    (make_u32 [1, 2, 3, 4] false = if false then bytesLSF [1, 2, 3, 4]
      else bytesLSF (List.reverse [1, 2, 3, 4])) ∧
    (make_u64 [1, 2, 3, 4, 5, 6, 7, 8] true =
      if true then bytesLSF [1, 2, 3, 4, 5, 6, 7, 8]
      else bytesLSF (List.reverse [1, 2, 3, 4, 5, 6, 7, 8])) :=
  ⟨(c8_byte_order_decoders [1, 2] true (by decide)).1 rfl,
   (c8_byte_order_decoders [1, 2, 3, 4] false (by decide)).2.1 rfl,
   (c8_byte_order_decoders [1, 2, 3, 4, 5, 6, 7, 8] true (by decide)).2.2 rfl⟩

/-- C2 counterexample: the value exactly one past the end of the
OS-reserved range (0x6FFFFFFF + 1 = 0x70000000) does NOT fail decode; it
decodes to the processor-reserved variant with in-range offset 0. -/
theorem c2_counterexample :
    SectionType.new 0x70000000 ≠ none ∧
    SectionType.new 0x70000000 = some (SectionType.LoProc 0) := by
  constructor
  · decide
  · decide

/-- C2 (amended): every value in one of the three reserved 2 ^ 28-sized
ranges decodes to the range-tagged variant carrying the in-range offset
(the first value of the OS-reserved range yields offset 0), every value
outside the fixed enumerated set and outside all three ranges is
rejected; the value one past the end of the OS-reserved range lies in
the processor-reserved range and decodes as its offset 0, and decode
fails one past the end of the last (user-reserved) range. -/
theorem c2_section_type_ranges :
    (∀ v, 0x60000000 ≤ v → v < 0x70000000 →
      SectionType.new v = some (SectionType.Loos (v - 0x60000000))) ∧
    (∀ v, 0x70000000 ≤ v → v < 0x80000000 →
      SectionType.new v = some (SectionType.LoProc (v - 0x70000000))) ∧
    (∀ v, 0x80000000 ≤ v → v < 0x90000000 →
      SectionType.new v = some (SectionType.LoUser (v - 0x80000000))) ∧
    (∀ v, v ∉ sectionTypeFixedValues → v < 0x60000000 ∨ 0x90000000 ≤ v →
      SectionType.new v = none) ∧
    SectionType.new 0x60000000 = some (SectionType.Loos 0) ∧
    SectionType.new 0x90000000 = none := by
  refine ⟨?_, ?_, ?_, ?_, by decide, by decide⟩
  · intro v h1 h2
    rw [SectionType.new.eq_def]
    iterate 18 rw [if_neg]
    rw [if_pos]
    all_goals omega
  · intro v h1 h2
    rw [SectionType.new.eq_def]
    iterate 19 rw [if_neg]
    rw [if_pos]
    all_goals omega
  · intro v h1 h2
    rw [SectionType.new.eq_def]
    iterate 20 rw [if_neg]
    rw [if_pos]
    all_goals omega
  · intro v hmem hrange
    simp only [sectionTypeFixedValues, List.mem_cons, List.mem_singleton,
      not_or] at hmem
    rw [SectionType.new.eq_def]
    iterate 21 rw [if_neg]
    all_goals omega

/-- Witness for C2 at concrete inputs: 0x60000005 in the OS-reserved
range and 0x5A outside every range and outside the fixed set. -/
theorem c2_section_type_ranges_witness :
    SectionType.new 0x60000005 = some (SectionType.Loos 5) ∧
    SectionType.new 0x5A = none :=
  ⟨by
    have h := c2_section_type_ranges.1 0x60000005 (by norm_num) (by norm_num)
    simpa using h,
   c2_section_type_ranges.2.2.2.1 0x5A (by decide) (Or.inl (by norm_num))⟩

/-- C5: when program-header table decode succeeds, the sequence length
equals the header's declared program-header count, and the record at
position i is exactly the slot decoded from base offset
program_header_offset + i * program_header_size, for both the 32-bit and
the 64-bit table layouts; sequence order is table slot order. -/
theorem c5_program_table_shape :
    (∀ (binary : List Nat) (hd : Header) (phs : List ProgramHeader),
      ProgramHeader.new32 binary hd = some phs →
      phs.length = hd.program_header_number ∧
      ∀ i, i < hd.program_header_number →
        phs.get? i = ProgramHeader.decodeSlot32 binary hd
          (hd.program_header_offset + i * hd.program_header_size)) ∧
    (∀ (binary : List Nat) (hd : Header) (phs : List ProgramHeader),
      ProgramHeader.new64 binary hd = some phs →
      phs.length = hd.program_header_number ∧
      ∀ i, i < hd.program_header_number →
        phs.get? i = ProgramHeader.decodeSlot64 binary hd
          (hd.program_header_offset + i * hd.program_header_size)) := by
  constructor
  · intro binary hd phs h
    constructor
    · have := collectMap_length _ _ _ h
      simpa [List.length_range] using this
    · intro i hi
      exact collectMap_get? _ _ _ h i i (List.get?_range hi)
  · intro binary hd phs h
    constructor
    · have := collectMap_length _ _ _ h
      simpa [List.length_range] using this
    · intro i hi
      exact collectMap_get? _ _ _ h i i (List.get?_range hi)

/-- C6: if the segment-type field of any slot decodes to an unrecognized
value, the whole program-header table decode returns none; no partial
sequence is produced.  Stated for both widths; the type field of slot i
is the four bytes at its base offset. -/
theorem c6_segment_type_abort :
    (∀ (binary : List Nat) (hd : Header) (i : Nat) (tb : List Nat),
      i < hd.program_header_number →
      readBytes binary (hd.program_header_offset + i * hd.program_header_size) 4
        = some tb →
      ProgramType.new (make_u32 tb hd.is_little) = none →
      ProgramHeader.new32 binary hd = none) ∧
    (∀ (binary : List Nat) (hd : Header) (i : Nat) (tb : List Nat),
      i < hd.program_header_number →
      readBytes binary (hd.program_header_offset + i * hd.program_header_size) 4
        = some tb →
      ProgramType.new (make_u32 tb hd.is_little) = none →
      ProgramHeader.new64 binary hd = none) := by
  constructor
  · intro binary hd i tb hi hread hpt
    apply collectMap_none _ _ i (List.mem_range.mpr hi)
    have hread' : readRange binary
        (hd.program_header_offset + i * hd.program_header_size,
         hd.program_header_offset + i * hd.program_header_size + 0x04)
        = some tb := by
      simpa [readRange, Nat.add_sub_cancel_left] using hread
    cases hfb : readBytes binary
        (hd.program_header_offset + i * hd.program_header_size + 0x18) 4 with
    | none =>
      simp [ProgramHeader.decodeSlot32, Header.ph_offset, Header.ph_size, hfb]
    | some fb =>
      simp [ProgramHeader.decodeSlot32, Header.ph_offset, Header.ph_size, hfb,
        ProgramHeader.construct, hread', hpt]
  · intro binary hd i tb hi hread hpt
    apply collectMap_none _ _ i (List.mem_range.mpr hi)
    have hread' : readRange binary
        (hd.program_header_offset + i * hd.program_header_size,
         hd.program_header_offset + i * hd.program_header_size + 0x04)
        = some tb := by
      simpa [readRange, Nat.add_sub_cancel_left] using hread
    cases hfb : readBytes binary
        (hd.program_header_offset + i * hd.program_header_size + 0x04) 4 with
    | none =>
      simp [ProgramHeader.decodeSlot64, Header.ph_offset, Header.ph_size, hfb]
    | some fb =>
      simp [ProgramHeader.decodeSlot64, Header.ph_offset, Header.ph_size, hfb,
        ProgramHeader.construct, hread', hpt]

/-- C7: when the header declares zero section-header slots, both
section-header decode entry points (including the name-resolution pass)
return the empty sequence, not a failure. -/
theorem c7_empty_section_table (binary : List Nat) (hd : Header)
    (h : hd.section_header_number = 0) :
    SectionHeader.new32 binary hd = some [] ∧
    SectionHeader.new64 binary hd = some [] := by
  have h32 : InnerSectionHeader.new32 binary hd = some [] := by
    simp [InnerSectionHeader.new32, Header.sh_num, h, collectMap]
  have h64 : InnerSectionHeader.new64 binary hd = some [] := by
    simp [InnerSectionHeader.new64, Header.sh_num, h, collectMap]
  constructor
  · simp [SectionHeader.new32, h32, SectionHeader.construct]
  · simp [SectionHeader.new64, h64, SectionHeader.construct]

theorem make_u32_eq_magic (mb : List Nat) (hlen : mb.length = 4)
    (hb : ∀ b ∈ mb, b < 256) (h : make_u32 mb true = 0x464C457F) :
    mb = [0x7F, 0x45, 0x4C, 0x46] := by
  match mb, hlen, hb, h with
  | [a, b, c, d], _, hb, h =>
    have ha : a < 256 := hb a (by simp)
    have hb' : b < 256 := hb b (by simp)
    have hc : c < 256 := hb c (by simp)
    have hd : d < 256 := hb d (by simp)
    have e : make_u32 [a, b, c, d] true =
        a ||| (b <<< 8) ||| (c <<< 16) ||| (d <<< 24) := rfl
    rw [e, lorshift a b 8 256 (by norm_num) ha,
      lorshift (a + b * 256) c 16 65536 (by norm_num) (by omega),
      lorshift (a + b * 256 + c * 65536) d 24 16777216
        (by norm_num) (by omega)] at h
    have : a = 0x7F ∧ b = 0x45 ∧ c = 0x4C ∧ d = 0x46 := by omega
    simp [this.1, this.2.1, this.2.2.1, this.2.2.2]

theorem construct_none_of_bad_magic (binary : List Nat)
    (trunc : List Nat → Nat → Bool → Option (Nat × Nat))
    (hwf : wellFormed binary = true)
    (hmagic : binary.take 4 ≠ [0x7F, 0x45, 0x4C, 0x46]) :
    construct binary trunc = none := by
  have hall : ∀ b ∈ binary, b < 256 := by
    intro b hbmem
    have := (List.all_eq_true.mp hwf) b hbmem
    simpa using this
  cases h0 : readBytes binary 0x0 4 with
  | none => simp [construct, h0]
  | some mb =>
    have hmb : mb = binary.take 4 ∧ 4 ≤ binary.length := by
      by_cases hlen : 0x0 + 4 ≤ binary.length
      · constructor
        · simp [readBytes, hlen] at h0
          simp [← h0]
        · omega
      · simp [readBytes, hlen] at h0
    have hlen4 : mb.length = 4 := by
      rw [hmb.1]
      simp [List.length_take]
      omega
    have hbytes : ∀ b ∈ mb, b < 256 := by
      intro b hbmem
      exact hall b (List.take_subset 4 binary (hmb.1 ▸ hbmem))
    have hne : make_u32 mb true ≠ 0x464C457F := by
      intro he
      exact hmagic (hmb.1 ▸ make_u32_eq_magic mb hlen4 hbytes he)
    simp [construct, h0, hne]

theorem construct_none_of_bad_version14 (binary : List Nat)
    (trunc : List Nat → Nat → Bool → Option (Nat × Nat))
    (h14 : binary.get? 0x14 ≠ some 1) :
    construct binary trunc = none := by
  cases h0 : readBytes binary 0x0 4 with
  | none => simp [construct, h0]
  | some mb =>
    by_cases hmag : make_u32 mb true = 0x464C457F
    · cases h6 : readByte binary 0x6 with
      | none => simp [construct, h0, hmag, h6]
      | some b6 =>
        by_cases hb6 : b6 = 1
        · cases h14' : readByte binary 0x14 with
          | none => simp [construct, h0, hmag, h6, hb6, h14']
          | some b14 =>
            have hb14 : b14 ≠ 1 := by
              intro he
              apply h14
              have : readByte binary 0x14 = some 1 := he ▸ h14'
              simpa [readByte] using this
            simp [construct, h0, hmag, h6, hb6, h14', hb14]
        · simp [construct, h0, hmag, h6, hb6]
    · simp [construct, h0, hmag]

/-- C4: if the first four bytes of a well-formed buffer are not the
fixed magic signature 0x7F 'E' 'L' 'F', both the 32-bit and the 64-bit
file-header decode entry points return none, whatever the rest of the
buffer holds (buffers shorter than four bytes are covered: the magic
read itself fails). -/
theorem c4_bad_magic (binary : List Nat) (hwf : wellFormed binary = true)
    (hmagic : binary.take 4 ≠ [0x7F, 0x45, 0x4C, 0x46]) :
    Header.new32 binary = none ∧ Header.new64 binary = none :=
  ⟨construct_none_of_bad_magic binary _ hwf hmagic,
   construct_none_of_bad_magic binary _ hwf hmagic⟩

/-- Witness for C4 at the concrete buffer [0, 1, 2, 3, 4]. -/
theorem c4_bad_magic_witness :
    Header.new32 [0, 1, 2, 3, 4] = none ∧
    Header.new64 [0, 1, 2, 3, 4] = none :=
  c4_bad_magic [0, 1, 2, 3, 4] (by decide) (by decide)

/-- C9: both width-specific decode entry points fail whenever the single
byte at offset 0x14 differs from 1 (or is absent), regardless of the
rest of the buffer.  In particular a big-endian input whose repeated
32-bit version field stores 1 in big-endian byte order (00 00 00 01 at
0x14-0x17) has byte 0 at offset 0x14 and is rejected. -/
theorem c9_version_byte_check (binary : List Nat)
    (h14 : binary.get? 0x14 ≠ some 1) :
    Header.new32 binary = none ∧ Header.new64 binary = none :=
  ⟨construct_none_of_bad_version14 binary _ h14,
   construct_none_of_bad_version14 binary _ h14⟩

/-- Concrete big-endian buffer whose repeated version field at
0x14-0x17 is 00 00 00 01 (the value 1 in big-endian byte order) and
which passes the magic and version-byte-0x6 checks. -/
def c9buf : List Nat :=
  [0x7F, 0x45, 0x4C, 0x46, 0x02, 0x02, 0x01, 0x00,
   0x00, 0x00, 0x00, 0x00, 0x00, 0x00, 0x00, 0x00,
   0x00, 0x02, 0x00, 0x3E, 0x00, 0x00, 0x00, 0x01,
   0x00, 0x00, 0x00, 0x00, 0x00, 0x00, 0x00, 0x00,
   0x00, 0x00, 0x00, 0x00, 0x00, 0x00, 0x00, 0x00,
   0x00, 0x00, 0x00, 0x00, 0x00, 0x00, 0x00, 0x00,
   0x00, 0x00, 0x00, 0x00, 0x00, 0x00, 0x00, 0x00,
   0x00, 0x00, 0x00, 0x00, 0x00, 0x00, 0x00, 0x00]

/-- Witness for C9 at c9buf: its byte at 0x14 is 0, so both decoders
reject it even though its 32-bit repeated-version field equals 1 under
the declared big endianness. -/
theorem c9_version_byte_check_witness :
    c9buf.get? 0x14 = some 0 ∧
    make_u32 [0x00, 0x00, 0x00, 0x01] false = 1 ∧
    Header.new64 c9buf = none :=
  ⟨by decide, by decide, (c9_version_byte_check c9buf (by decide)).2⟩

/-- C3: during section-name resolution, a record whose name offset
(string-table base plus raw name offset) points past the end of the
buffer, or whose null-terminated byte run is not valid text, makes the
per-record resolution fail and with it the entire section-header decode:
none is returned, never a truncated or empty name and never a partial
sequence.  The string-table base is the one the code designates (the
offset of the last decoded record). -/
theorem c3_name_resolution_failure (binary : List Nat) (hd : Header)
    (inners : List InnerSectionHeader) (lastRec inner : InnerSectionHeader)
    (hlast : inners.getLast? = some lastRec) (hmem : inner ∈ inners)
    (hfail : binary.length ≤ inner.name_offset + lastRec.offset ∨
      (∃ e, (binary.drop (inner.name_offset + lastRec.offset)).findIdx?
          (fun b => b == 0) = some e ∧
        isValidUtf8 ((binary.drop (inner.name_offset + lastRec.offset)).take e)
          = false)) :
    resolveName binary lastRec.offset inner = none ∧
    SectionHeader.construct binary hd inners = none ∧
    (InnerSectionHeader.new32 binary hd = some inners →
      SectionHeader.new32 binary hd = none) ∧
    (InnerSectionHeader.new64 binary hd = some inners →
      SectionHeader.new64 binary hd = none) := by
  have hres : resolveName binary lastRec.offset inner = none := by
    rcases hfail with hpast | ⟨e, hfind, hutf⟩
    · by_cases hlt : binary.length < inner.name_offset + lastRec.offset
      · simp [resolveName, hlt]
      · have heq : binary.length = inner.name_offset + lastRec.offset := by omega
        have hnil : binary.drop (inner.name_offset + lastRec.offset) = [] :=
          List.drop_eq_nil_of_le (le_of_eq heq)
        simp [resolveName, hlt, hnil]
    · by_cases hlt : binary.length < inner.name_offset + lastRec.offset
      · simp [resolveName, hlt]
      · simp [resolveName, hlt, hfind, hutf]
  have hcon : SectionHeader.construct binary hd inners = none := by
    simp only [SectionHeader.construct, hlast]
    apply collectMap_none _ _ inner hmem
    simp [hres]
  refine ⟨hres, hcon, ?_, ?_⟩
  · intro h32
    simp [SectionHeader.new32, h32, hcon]
  · intro h64
    simp [SectionHeader.new64, h64, hcon]

/-- Concrete raw record whose name offset runs past an empty buffer. -/
def c3inner : InnerSectionHeader :=
  { name_offset := 1, section_type := .Null, flags := 0, addr := 0,
    offset := 0, size := 0, link := 0, info := 0, addr_align := 0,
    entry_size := 0 }

/-- Concrete header for the C3 witness. -/
def c3hd : Header :=
  { elf_class := .ELF32, endian := .Little, target_abi := .SystemV,
    abi_version := 0, object_type := .NONE, target_isa := .NONE,
    entry_point := 0, program_header_offset := 0, section_header_offset := 0,
    flags := 0, header_size := 0, program_header_size := 0,
    program_header_number := 0, section_header_size := 0,
    section_header_number := 1, section_name_table_entry := 0 }

/-- Witness for C3: over the empty buffer, the single-record table whose
name offset points past the end fails both per-record resolution and the
whole construct pass. -/
theorem c3_name_resolution_failure_witness :
    resolveName [] c3inner.offset c3inner = none ∧
    SectionHeader.construct [] c3hd [c3inner] = none := by
  have h := c3_name_resolution_failure [] c3hd [c3inner] c3inner c3inner
    (by decide) (by decide) (Or.inl (by decide))
  exact ⟨h.1, h.2.1⟩

/-- Concrete 32-bit little-endian input for C1: two section-header
records; the file header's string-table-section index designates record
0 (whose data at 0x84 is 'X' 0 'Y' 0), while the LAST record's data at
0x88 is 'P' 0 'Q' 0. -/
def c1buf : List Nat :=
  [0x7F, 0x45, 0x4C, 0x46, 0x01, 0x01, 0x01, 0x00,
   0x00, 0x00, 0x00, 0x00, 0x00, 0x00, 0x00, 0x00,
   0x02, 0x00, 0x03, 0x00, 0x01, 0x00, 0x00, 0x00,
   0x00, 0x00, 0x00, 0x00, 0x00, 0x00, 0x00, 0x00,
   0x34, 0x00, 0x00, 0x00, 0x00, 0x00, 0x00, 0x00,
   0x34, 0x00, 0x00, 0x00, 0x00, 0x00, 0x28, 0x00,
   0x02, 0x00, 0x00, 0x00,
   0x00, 0x00, 0x00, 0x00, 0x03, 0x00, 0x00, 0x00,
   0x00, 0x00, 0x00, 0x00, 0x00, 0x00, 0x00, 0x00,
   0x84, 0x00, 0x00, 0x00, 0x04, 0x00, 0x00, 0x00,
   0x00, 0x00, 0x00, 0x00, 0x00, 0x00, 0x00, 0x00,
   0x00, 0x00, 0x00, 0x00, 0x00, 0x00, 0x00, 0x00,
   0x02, 0x00, 0x00, 0x00, 0x01, 0x00, 0x00, 0x00,
   0x00, 0x00, 0x00, 0x00, 0x00, 0x00, 0x00, 0x00,
   0x88, 0x00, 0x00, 0x00, 0x04, 0x00, 0x00, 0x00,
   0x00, 0x00, 0x00, 0x00, 0x00, 0x00, 0x00, 0x00,
   0x00, 0x00, 0x00, 0x00, 0x00, 0x00, 0x00, 0x00,
   0x58, 0x00, 0x59, 0x00, 0x50, 0x00, 0x51, 0x00]

/-- The file header decoded from c1buf. -/
def c1hdr : Header :=
  { elf_class := .ELF32, endian := .Little, target_abi := .SystemV,
    abi_version := 0, object_type := .EXEC, target_isa := .x86,
    entry_point := 0, program_header_offset := 0,
    section_header_offset := 0x34, flags := 0, header_size := 0x34,
    program_header_size := 0, program_header_number := 0,
    section_header_size := 0x28, section_header_number := 2,
    section_name_table_entry := 0 }

set_option maxRecDepth 100000 in
/-- C1 (divergence exhibited): on c1buf the header's string-table index
field is 0, designating the FIRST record, yet the decoded section names
are resolved from the LAST record's data ('P', 'Q'); resolving from the
record named by the index field would give ('X', 'Y').  So name
resolution follows positional convention, not the file header's
string-table-section-index field. -/
theorem c1_names_resolved_from_last_entry :
    Header.new32 c1buf = some c1hdr ∧
    c1hdr.section_name_table_entry = 0 ∧
    (SectionHeader.new32 c1buf c1hdr).map (fun shs => shs.map SectionHeader.name)
      = some [[0x50], [0x51]] ∧
    (InnerSectionHeader.new32 c1buf c1hdr).bind
      (fun ih => sectionNamesBySpecIndex c1buf c1hdr ih)
      = some [[0x58], [0x59]] ∧
    (some [[0x50], [0x51]] : Option (List (List Nat))) ≠ some [[0x58], [0x59]] := by
  refine ⟨by decide, by decide, by decide, by decide, by decide⟩

/-- Concrete buffer for C10: the class byte at 0x4 is 2 (64-bit) and
everything else passes validation; the three width-dependent fields are
filled with distinctive 32-bit little-endian values. -/
def c10buf : List Nat :=
  [0x7F, 0x45, 0x4C, 0x46, 0x02, 0x01, 0x01, 0x00,
   0x00, 0x00, 0x00, 0x00, 0x00, 0x00, 0x00, 0x00,
   0x02, 0x00, 0x3E, 0x00, 0x01, 0x00, 0x00, 0x00,
   0x44, 0x33, 0x22, 0x11, 0x78, 0x56, 0x00, 0x00,
   0x00, 0x10, 0x00, 0x00, 0x00, 0x00, 0x00, 0x00,
   0x34, 0x00, 0x20, 0x00, 0x00, 0x00, 0x28, 0x00,
   0x00, 0x00, 0x01, 0x00]

/-- The header Header::<u32>::new reports for c10buf. -/
def c10hdr : Header :=
  { elf_class := .ELF64, endian := .Little, target_abi := .SystemV,
    abi_version := 0, object_type := .EXEC, target_isa := .x86_64,
    entry_point := 0x11223344, program_header_offset := 0x5678,
    section_header_offset := 0x1000, flags := 0, header_size := 0x34,
    program_header_size := 0x20, program_header_number := 0,
    section_header_size := 0x28, section_header_number := 0,
    section_name_table_entry := 1 }

set_option maxRecDepth 100000 in
/-- C10: the 32-bit entry point does not require the class byte to be 1;
on c10buf, whose class byte is 2, Header::<u32>::new succeeds and
returns a header recording class ELF64 while the entry point and both
table offsets were read as 32-bit fields (four bytes each starting at
0x18). -/
theorem c10_class_byte_not_cross_checked :
    c10buf.get? 0x4 = some 2 ∧
    Header.new32 c10buf = some c10hdr ∧
    c10hdr.elf_class = Class.ELF64 ∧
    c10hdr.entry_point = 0x11223344 ∧
    c10hdr.program_header_offset = 0x5678 ∧
    c10hdr.section_header_offset = 0x1000 := by
  refine ⟨by decide, by decide, by decide, by decide, by decide, by decide⟩

/-- Concrete header for the C5 witness: one 32-byte program-header slot
at offset 0. -/
def c5hd : Header :=
  { elf_class := .ELF32, endian := .Little, target_abi := .SystemV,
    abi_version := 0, object_type := .EXEC, target_isa := .x86,
    entry_point := 0, program_header_offset := 0, section_header_offset := 0,
    flags := 0, header_size := 0, program_header_size := 0x20,
    program_header_number := 1, section_header_size := 0,
    section_header_number := 0, section_name_table_entry := 0 }

/-- Concrete 32-byte table for the C5 witness: one Load segment, all
other fields zero. -/
def c5buf : List Nat :=
  [1, 0, 0, 0, 0, 0, 0, 0, 0, 0, 0, 0, 0, 0, 0, 0,
   0, 0, 0, 0, 0, 0, 0, 0, 0, 0, 0, 0, 0, 0, 0, 0]

/-- The record decoded from the single slot of c5buf. -/
def c5ph : ProgramHeader :=
  { program_type := .Load, offset := 0, vaddr := 0, paddr := 0,
    file_size := 0, memory_size := 0, flags := 0, align := 0 }

/-- Witness for C5 at the concrete one-slot table c5buf. -/
theorem c5_program_table_shape_witness :
    [c5ph].length = c5hd.program_header_number ∧
    [c5ph].get? 0 = ProgramHeader.decodeSlot32 c5buf c5hd
      (c5hd.program_header_offset + 0 * c5hd.program_header_size) := by
  have h := c5_program_table_shape.1 c5buf c5hd [c5ph] (by decide)
  exact ⟨h.1, h.2 0 (by decide)⟩

/-- Concrete header for the C6 witness: one 32-byte program-header slot
at offset 0. -/
def c6hd : Header :=
  { elf_class := .ELF32, endian := .Little, target_abi := .SystemV,
    abi_version := 0, object_type := .EXEC, target_isa := .x86,
    entry_point := 0, program_header_offset := 0, section_header_offset := 0,
    flags := 0, header_size := 0, program_header_size := 0x20,
    program_header_number := 1, section_header_size := 0,
    section_header_number := 0, section_name_table_entry := 0 }

/-- Concrete table for the C6 witness: the slot's segment-type field
holds 8, outside the recognized set. -/
def c6buf : List Nat :=
  [8, 0, 0, 0, 0, 0, 0, 0, 0, 0, 0, 0, 0, 0, 0, 0,
   0, 0, 0, 0, 0, 0, 0, 0, 0, 0, 0, 0, 0, 0, 0, 0]

/-- Witness for C6 at the concrete table c6buf with segment type 8. -/
theorem c6_segment_type_abort_witness :
    ProgramHeader.new32 c6buf c6hd = none :=
  c6_segment_type_abort.1 c6buf c6hd 0 [8, 0, 0, 0]
    (by decide) (by decide) (by decide)

/-- Concrete header for the C7 witness: zero section-header slots. -/
def c7hd : Header :=
  { elf_class := .ELF32, endian := .Little, target_abi := .SystemV,
    abi_version := 0, object_type := .EXEC, target_isa := .x86,
    entry_point := 0, program_header_offset := 0, section_header_offset := 0,
    flags := 0, header_size := 0, program_header_size := 0,
    program_header_number := 0, section_header_size := 0,
    section_header_number := 0, section_name_table_entry := 0 }

/-- Witness for C7 at the empty buffer and a zero-count header. -/
theorem c7_empty_section_table_witness :
    SectionHeader.new32 [] c7hd = some [] ∧
    SectionHeader.new64 [] c7hd = some [] :=
  c7_empty_section_table [] c7hd rfl

end ElfReader
